import Mathlib

/-!
Verification of the loan-eligibility core of the repository:
the pure rule in src/Integration_testing/app/logic.py and its
request handler in src/Integration_testing/app/main.py.

Embedding choices: Python float income is modelled as a rational number,
Python int age as an integer, employment status as a string. The handler
is pure in the source (no error branch, no state), so it is embedded as a
total function producing an HTTP-style response with status code 200.
-/

/-- The list of qualifying employment statuses, from logic.py. -/
def qualifying_statuses : List String := ["employed", "self-employed"]

/-- Loan eligibility rule from src/Integration_testing/app/logic.py:
income at least 50000, age at least 21, and the employment status is a
member of the qualifying list. -/
def is_eligable_for_load (income : ℚ) (age : ℤ) (employment_status : String) : Bool :=
  decide (income ≥ 50000) && decide (age ≥ 21) &&
    qualifying_statuses.contains employment_status

/-- The request model from src/Integration_testing/app/main.py. -/
structure Applicant where
  income : ℚ
  age : ℤ
  employment_status : String
deriving DecidableEq

/-- The response body returned by the endpoint: a single boolean field. -/
structure EligibilityBody where
  eligible : Bool
deriving DecidableEq

/-- An HTTP-style response: status code plus the JSON body. -/
structure HttpResponse where
  status_code : Nat
  body : EligibilityBody
deriving DecidableEq

/-- The handler for POST /loan_eligibility from main.py: it calls the rule
on the validated applicant fields and returns the boolean in the body,
with the framework's default success status 200. -/
def check_eligibility (applicant : Applicant) : HttpResponse :=
  ⟨200, ⟨is_eligable_for_load
    applicant.income applicant.age applicant.employment_status⟩⟩

/-- Sequential processing of a batch of independent requests: each request
is handled on its own, with no state carried between them (the source app
object holds no mutable state). -/
def processRequests (reqs : List Applicant) : List HttpResponse :=
  reqs.map check_eligibility

/-- Helper: the rule evaluates to true exactly when the three conditions hold. -/
theorem eligible_iff (income : ℚ) (age : ℤ) (s : String) :
    is_eligable_for_load income age s = true ↔
      (income ≥ 50000 ∧ age ≥ 21 ∧ (s = "employed" ∨ s = "self-employed")) := by
  simp [is_eligable_for_load, qualifying_statuses, and_assoc]

/-- Helper: the rule evaluates to false exactly when some condition fails. -/
theorem eligible_false_iff (income : ℚ) (age : ℤ) (s : String) :
    is_eligable_for_load income age s = false ↔
      ¬ (income ≥ 50000 ∧ age ≥ 21 ∧ (s = "employed" ∨ s = "self-employed")) := by
  rw [← Bool.not_eq_true, eligible_iff]

/-- Claim C1: the rule returns true exactly when income is at least 50000,
age is at least 21, and the employment status is exactly one of the two
qualifying strings; any input violating a condition yields false. -/
theorem is_eligable_for_load_iff (income : ℚ) (age : ℤ) (s : String) :
    is_eligable_for_load income age s = true ↔
      (income ≥ 50000 ∧ age ≥ 21 ∧ (s = "employed" ∨ s = "self-employed")) :=
  eligible_iff income age s

/-- Claim C2: for every applicant, the endpoint handler returns exactly the
boolean produced by the rule on that applicant's fields, in the single body
field eligible, with success status 200. -/
theorem check_eligibility_returns_rule (a : Applicant) :
    check_eligibility a =
      ⟨200, ⟨is_eligable_for_load a.income a.age a.employment_status⟩⟩ := rfl

/-- Claim C3: boundary behaviour. With the other conditions qualifying,
income exactly 50000 qualifies and age exactly 21 qualifies; income 49999.99
or age 20 yields false regardless of the other inputs. -/
theorem boundary_thresholds (income : ℚ) (age : ℤ) (s : String) :
    (age ≥ 21 → (s = "employed" ∨ s = "self-employed") →
      is_eligable_for_load 50000 age s = true) ∧
    (income ≥ 50000 → (s = "employed" ∨ s = "self-employed") →
      is_eligable_for_load income 21 s = true) ∧
    is_eligable_for_load (4999999 / 100) age s = false ∧
    is_eligable_for_load income 20 s = false := by
  refine ⟨fun ha hs => (eligible_iff _ _ _).mpr ⟨by norm_num, ha, hs⟩,
    fun hi hs => (eligible_iff _ _ _).mpr ⟨hi, le_refl 21, hs⟩,
    (eligible_false_iff _ _ _).mpr ?_, (eligible_false_iff _ _ _).mpr ?_⟩
  · rintro ⟨h, -, -⟩
    norm_num at h
  · rintro ⟨-, h, -⟩
    omega

/-- Witness for C3 at concrete boundary inputs. -/
theorem boundary_thresholds_witness :
    is_eligable_for_load 50000 25 "employed" = true ∧
    is_eligable_for_load 60000 21 "self-employed" = true ∧
    is_eligable_for_load (4999999 / 100) 25 "employed" = false ∧
    is_eligable_for_load 60000 20 "employed" = false := by
  have A := boundary_thresholds 60000 25 "employed"
  have B := boundary_thresholds 60000 30 "self-employed"
  exact ⟨A.1 (by norm_num) (Or.inl rfl), B.2.1 (by norm_num) (Or.inr rfl),
    A.2.2.1, A.2.2.2⟩

/-- Claim C4: any employment status other than exactly the two qualifying
strings makes the rule return false, for every income and age. -/
theorem status_exact_match (income : ℚ) (age : ℤ) (s : String)
    (h1 : s ≠ "employed") (h2 : s ≠ "self-employed") :
    is_eligable_for_load income age s = false := by
  refine (eligible_false_iff _ _ _).mpr ?_
  rintro ⟨-, -, h | h⟩
  · exact h1 h
  · exact h2 h

/-- Witness for C4 at the capitalized status Employed. -/
theorem status_exact_match_witness :
    ("Employed" ≠ "employed") ∧ ("Employed" ≠ "self-employed") ∧
    is_eligable_for_load 80000 28 "Employed" = false :=
  ⟨by decide, by decide,
    status_exact_match 80000 28 "Employed" (by decide) (by decide)⟩

/-- Claim C5: the six concrete scenarios hold end to end through the
endpoint handler. -/
theorem concrete_scenarios :
    check_eligibility ⟨60000, 25, "employed"⟩ = ⟨200, ⟨true⟩⟩ ∧
    check_eligibility ⟨30000, 18, "unemployed"⟩ = ⟨200, ⟨false⟩⟩ ∧
    check_eligibility ⟨10000, 30, "employed"⟩ = ⟨200, ⟨false⟩⟩ ∧
    check_eligibility ⟨70000, 16, "employed"⟩ = ⟨200, ⟨false⟩⟩ ∧
    check_eligibility ⟨80000, 28, "self-employed"⟩ = ⟨200, ⟨true⟩⟩ ∧
    check_eligibility ⟨80000, 28, "student"⟩ = ⟨200, ⟨false⟩⟩ := by
  decide

/-- Claim C6: totality. The rule always returns one of the two booleans, and
for every applicant the handler takes the success branch with status 200 and
a body holding the rule's boolean: no error path exists. -/
theorem rule_and_handler_total (income : ℚ) (age : ℤ) (s : String)
    (a : Applicant) :
    (is_eligable_for_load income age s = true ∨
      is_eligable_for_load income age s = false) ∧
    (check_eligibility a).status_code = 200 ∧
    (check_eligibility a).body =
      ⟨is_eligable_for_load a.income a.age a.employment_status⟩ :=
  ⟨Bool.eq_false_or_eq_true _, rfl, rfl⟩

/-- Claim C7: determinism as a two-run property. Two invocations on
identical income, age and employment status produce identical rule outputs
and identical handler responses. -/
theorem two_run_determinism (a1 a2 : Applicant)
    (hi : a1.income = a2.income) (ha : a1.age = a2.age)
    (hs : a1.employment_status = a2.employment_status) :
    is_eligable_for_load a1.income a1.age a1.employment_status =
      is_eligable_for_load a2.income a2.age a2.employment_status ∧
    check_eligibility a1 = check_eligibility a2 := by
  simp [check_eligibility, hi, ha, hs]

/-- Witness for C7 on two identical concrete requests. -/
theorem two_run_determinism_witness :
    check_eligibility ⟨60000, 25, "employed"⟩ =
      check_eligibility ⟨60000, 25, "employed"⟩ :=
  (two_run_determinism ⟨60000, 25, "employed"⟩ ⟨60000, 25, "employed"⟩
    rfl rfl rfl).2

/-- Claim C8: no lower-bound validation. Zero or negative income, and zero
or negative age, are handled and simply yield false. -/
theorem no_lower_bound_validation (income : ℚ) (age : ℤ) (s : String) :
    (income ≤ 0 → is_eligable_for_load income age s = false) ∧
    (age ≤ 0 → is_eligable_for_load income age s = false) := by
  refine ⟨fun h => (eligible_false_iff _ _ _).mpr ?_,
    fun h => (eligible_false_iff _ _ _).mpr ?_⟩
  · rintro ⟨h1, -, -⟩
    linarith
  · rintro ⟨-, h2, -⟩
    omega

/-- Witness for C8 at negative income and zero age. -/
theorem no_lower_bound_validation_witness :
    ((-5 : ℚ) ≤ 0 ∧ is_eligable_for_load (-5) 30 "employed" = false) ∧
    ((0 : ℤ) ≤ 0 ∧ is_eligable_for_load 60000 0 "employed" = false) :=
  ⟨⟨by norm_num, (no_lower_bound_validation (-5) 30 "employed").1 (by norm_num)⟩,
   ⟨le_refl 0, (no_lower_bound_validation 60000 0 "employed").2 (le_refl 0)⟩⟩

/-- Claim C9: statelessness. In a batch of requests, the response at any
position is the handler applied to the request at that position alone, and
two batches agreeing at a position produce equal responses there, whatever
the surrounding requests are. -/
theorem request_independence (l1 l2 : List Applicant) (i : ℕ) :
    (processRequests l1)[i]? = (l1[i]?).map check_eligibility ∧
    (l1[i]? = l2[i]? →
      (processRequests l1)[i]? = (processRequests l2)[i]?) := by
  constructor
  · simp [processRequests]
  · intro h
    simp [processRequests, h]

/-- Witness for C9: the first request's outcome is unchanged when a second
request is appended to the batch. -/
theorem request_independence_witness :
    (processRequests [⟨60000, 25, "employed"⟩])[0]? =
      (processRequests
        [⟨60000, 25, "employed"⟩, ⟨30000, 18, "unemployed"⟩])[0]? := by
  have h : ([(⟨60000, 25, "employed"⟩ : Applicant)])[0]? =
      ([⟨60000, 25, "employed"⟩, ⟨30000, 18, "unemployed"⟩] :
        List Applicant)[0]? := rfl
  exact (request_independence [⟨60000, 25, "employed"⟩]
    [⟨60000, 25, "employed"⟩, ⟨30000, 18, "unemployed"⟩] 0).2 h

/-- Claim C10: monotonicity in income and age. Raising income or age never
revokes eligibility, for any fixed employment status. -/
theorem eligibility_monotone (i1 i2 : ℚ) (a1 a2 : ℤ) (s : String)
    (hi : i1 ≤ i2) (ha : a1 ≤ a2)
    (h : is_eligable_for_load i1 a1 s = true) :
    is_eligable_for_load i2 a2 s = true := by
  rw [eligible_iff] at h ⊢
  obtain ⟨h1, h2, h3⟩ := h
  exact ⟨le_trans h1 hi, le_trans h2 ha, h3⟩

/-- Witness for C10 from the boundary input up to a larger one. -/
theorem eligibility_monotone_witness :
    (50000 : ℚ) ≤ 60000 ∧ (21 : ℤ) ≤ 25 ∧
    is_eligable_for_load 50000 21 "employed" = true ∧
    is_eligable_for_load 60000 25 "employed" = true := by
  have h : is_eligable_for_load 50000 21 "employed" = true := by decide
  exact ⟨by norm_num, by norm_num, h,
    eligibility_monotone 50000 60000 21 25 "employed"
      (by norm_num) (by norm_num) h⟩
